/-
Verification of the resume-screener matching core against its specification.

The Python sources are shallowly embedded in Lean 4:
* Python numbers (floats used for scores/percentages) are modelled as ℚ;
  `round(x, 2)` is modelled by `round2` below (round to the nearest multiple
  of 1/100).  All concrete values used in theorems stay away from rounding
  ties, where binary-float rounding and rational rounding could differ.
* Python `str.lower()` / `str.isupper()` / whitespace are modelled on the
  ASCII fragment (`Char.toLower`, `Char.isUpper`, `pyIsSpace`); every string
  appearing in a theorem is ASCII.
* Python `set`s of strings are modelled as deduplicated lists
  (`List.dedup`); only membership and cardinality of these sets are used by
  the code, both of which the list model reproduces exactly.
* The external ML similarity capabilities (TF-IDF cosine similarity and the
  sentence-transformer encoder, `calculate_text_similarity` /
  `calculate_semantic_similarity` in `matcher.py`) are modelled as oracle
  function parameters of the fit scorer: the claims under verification do
  not depend on their values.
-/
import Mathlib

/-! ## Python string primitives -/

/-- Python `str.lower()` (ASCII fragment). -/
def pyLower (s : String) : String := ⟨s.data.map Char.toLower⟩

/-- Python whitespace class `\s` = `[ \t\n\r\f\v]` (ASCII fragment). -/
def pyIsSpace (c : Char) : Bool :=
  c = ' ' || c = '\t' || c = '\n' || c = '\r' || c = '\x0b' || c = '\x0c'

/-- Python `str.strip()` on a character list: drop leading and trailing
whitespace. -/
def pyStrip (l : List Char) : List Char :=
  ((l.dropWhile pyIsSpace).reverse.dropWhile pyIsSpace).reverse

/-- Floor of a rational, computed from its reduced numerator/denominator
(kernel-reducible, unlike Mathlib's `Int.floor` instance path). -/
def ratFloor (q : ℚ) : ℤ := q.num / q.den

/-- Round to the nearest integer, halves rounding up.  Python's `round`
uses bankers' rounding on binary floats; every concrete value in this file
stays away from ties, where the two conventions could differ. -/
def pyRound (q : ℚ) : ℤ := ratFloor (q + 1/2)

/-- Python `round(x, 2)`: round to the nearest hundredth. -/
def round2 (q : ℚ) : ℚ := (pyRound (q * 100) : ℚ) / 100

/-! ## `matcher.py` — `ResumeJobMatcher.calculate_skill_match` -/

/-- Python set of lowercased strings: `set([s.lower() for s in l])`,
as a deduplicated list. -/
def toLowerSet (l : List String) : List String := (l.map pyLower).dedup

/-- Result dictionary of `calculate_skill_match`.  In the empty-requirement
branch the Python dict carries no `total_required`/`total_matched` keys;
the embedding fills both with 0 there (no claim reads them in that case). -/
structure SkillMatchResult where
  match_percentage : ℚ
  matched_skills : List String
  missing_skills : List String
  extra_skills : List String
  total_required : Nat
  total_matched : Nat
deriving Repr, DecidableEq

/-- Source `ResumeJobMatcher.calculate_skill_match` (matcher.py lines 40-88). -/
def calculate_skill_match (resume_skills job_skills : List String) :
    SkillMatchResult :=
  if job_skills = [] then
    { match_percentage := 0, matched_skills := [], missing_skills := []
      extra_skills := [], total_required := 0, total_matched := 0 }
  else
    let resume_skills_set := toLowerSet resume_skills
    let job_skills_set := toLowerSet job_skills
    let matched := job_skills_set.filter (fun s => s ∈ resume_skills_set)
    let missing := job_skills_set.filter (fun s => s ∉ resume_skills_set)
    let extra := resume_skills_set.filter (fun s => s ∉ job_skills_set)
    let match_percentage : ℚ :=
      if job_skills_set = [] then 0
      else ((matched.length : ℚ) / (job_skills_set.length : ℚ)) * 100
    { match_percentage := round2 match_percentage
      matched_skills := job_skills.filter (fun s => pyLower s ∈ matched)
      missing_skills := job_skills.filter (fun s => pyLower s ∈ missing)
      extra_skills := resume_skills.filter (fun s => pyLower s ∈ extra)
      total_required := job_skills.length
      total_matched := matched.length }

/-! ## `matcher.py` — `calculate_experience_match` -/

structure ExperienceMatch where
  score : ℚ
  meets_requirement : Bool
  difference : ℤ
deriving Repr, DecidableEq

/-- Source `ResumeJobMatcher.calculate_experience_match` (matcher.py lines 151-187).
`round(score, 2)` is applied on return in the source; on the taken-
requirement branch it is the identity (`round2 100 = 100`). -/
def calculate_experience_match (resume_years job_required_years : ℤ) :
    ExperienceMatch :=
  if job_required_years = 0 then
    { score := 100, meets_requirement := true, difference := 0 }
  else
    let score : ℚ :=
      if resume_years ≥ job_required_years then 100
      else ((resume_years : ℚ) / (job_required_years : ℚ)) * 100
    { score := round2 score
      meets_requirement := decide (resume_years ≥ job_required_years)
      difference := resume_years - job_required_years }

/-! ## `matcher.py` — `calculate_education_match` -/

structure EducationMatch where
  score : ℚ
  meets_requirement : Bool
deriving Repr, DecidableEq

/-- The `education_hierarchy` dict lookup `education_hierarchy.get(level, 0)`
(matcher.py lines 206-216). -/
def education_hierarchy (level : String) : Nat :=
  if level = "high_school" then 1
  else if level = "diploma" then 2
  else if level = "associate" then 3
  else if level = "bachelors" then 4
  else if level = "masters" then 5
  else if level = "phd" then 6
  else 0

/-- Source `ResumeJobMatcher.calculate_education_match` (matcher.py lines 189-235).
As in the source, `round(score, 2)` is applied on return; it is the
identity on the full-score branches. -/
def calculate_education_match (resume_education job_education : String) :
    EducationMatch :=
  let resume_level := education_hierarchy resume_education
  let job_level := education_hierarchy job_education
  if job_level = 0 then
    { score := 100, meets_requirement := true }
  else if resume_level ≥ job_level then
    { score := 100, meets_requirement := true }
  else
    { score := round2 (((resume_level : ℚ) / (job_level : ℚ)) * 70)
      meets_requirement := false }

/-! ## `matcher.py` — `calculate_overall_fit_score` -/

/-- The weights dictionary. -/
structure Weights where
  skills : ℚ
  experience : ℚ
  education : ℚ
  text_similarity : ℚ
  semantic_similarity : ℚ
deriving Repr, DecidableEq

/-- Default weights (matcher.py lines 257-264). -/
def defaultWeights : Weights :=
  { skills := 40/100, experience := 20/100, education := 15/100
    text_similarity := 15/100, semantic_similarity := 10/100 }

/-- The fields of `resume_data` / `job_data` that
`calculate_overall_fit_score` reads (via nested `.get` with defaults):
`['skills']['skills']`, `['years_experience']`,
`['education']['highest_level']`, `['raw_text']`. -/
structure ProfileData where
  skills : List String
  years_experience : ℤ
  education_level : String
  raw_text : String

structure FitResult where
  overall_score : ℚ
  fit_level : String
  skill_match : SkillMatchResult
  experience_match : ExperienceMatch
  education_match : EducationMatch
  text_similarity : ℚ
  semantic_similarity : ℚ
  weights_used : Weights

/-- Source `ResumeJobMatcher.calculate_overall_fit_score` (matcher.py lines
237-321).  `textSimFn` and `semSimFn` are oracle parameters standing for
the external `calculate_text_similarity` / `calculate_semantic_similarity`
library calls; `use_transformers` is the constructor flag. -/
def calculate_overall_fit_score (textSimFn semSimFn : String → String → ℚ)
    (use_transformers : Bool) (resume_data job_data : ProfileData)
    (weights : Option Weights) : FitResult :=
  let w := weights.getD defaultWeights
  let skill_match := calculate_skill_match resume_data.skills job_data.skills
  let resume_years := resume_data.years_experience
  let job_years : ℤ := 0
  let experience_match := calculate_experience_match resume_years job_years
  let education_match :=
    calculate_education_match resume_data.education_level job_data.education_level
  let text_sim := textSimFn resume_data.raw_text job_data.raw_text
  let semantic_sim : ℚ :=
    if use_transformers then semSimFn resume_data.raw_text job_data.raw_text else 0
  let overall_score :=
    skill_match.match_percentage * w.skills +
    experience_match.score * w.experience +
    education_match.score * w.education +
    text_sim * w.text_similarity +
    semantic_sim * w.semantic_similarity
  let fit_level :=
    if overall_score ≥ 80 then "Excellent"
    else if overall_score ≥ 60 then "Good"
    else if overall_score ≥ 40 then "Fair"
    else "Poor"
  { overall_score := round2 overall_score
    fit_level := fit_level
    skill_match := skill_match
    experience_match := experience_match
    education_match := education_match
    text_similarity := text_sim
    semantic_similarity := semantic_sim
    weights_used := w }

/-! ## `text_cleaner.py` — regular-expression machinery

The `TextCleaner` patterns are embedded as explicit matchers over
`List Char`.  Where a pattern is used only through `re.search` truthiness
(email/phone/url in `extract_name`), the matcher is nondeterministic: it
returns the list of all possible remainders of a match starting at the
given position, so a search succeeds exactly when some position admits
some backtracking parse — the same criterion Python's engine decides.
Where `re.findall` semantics matter (`extract_years_of_experience`), the
matchers are deterministic and mirror the engine's greedy choices; for
those patterns every greedy choice point is followed by a continuation
whose first character is disjoint from the repeated class, so the greedy
parse is the unique parse and no backtracking arises.  `\d`, `\w`, `\s`
and case mapping are modelled on their ASCII fragments. -/

/-- Python `\w` (ASCII fragment). -/
def isWordC (c : Char) : Bool := c.isAlphanum || c = '_'

def isWordOpt : Option Char → Bool
  | some c => isWordC c
  | none => false

/-- Regex `\b`: exactly one side of the position is a word character. -/
def boundaryB (prev next : Option Char) : Bool := isWordOpt prev != isWordOpt next

/-- Match a literal character sequence, returning the remainder. -/
def lit : List Char → List Char → Option (List Char)
  | [], s => some s
  | _ :: _, [] => none
  | c :: cs, d :: ds => if d = c then lit cs ds else none

/-- Nondeterministic single character of a class. -/
def mOne (p : Char → Bool) (s : List Char) : List (List Char) :=
  match s with
  | c :: cs => if p c then [cs] else []
  | [] => []

def mLit (w : String) (s : List Char) : List (List Char) :=
  match lit w.data s with
  | some r => [r]
  | none => []

def mSeq (a b : List Char → List (List Char)) (s : List Char) :
    List (List Char) :=
  (a s).flatMap b

/-- Regex `X?`: both alternatives. -/
def mOpt (a : List Char → List (List Char)) (s : List Char) :
    List (List Char) :=
  s :: a s

/-- Regex `C{lo,hi}` over a character class: all remainders. -/
def mClassBetween (p : Char → Bool) (lo hi : Nat) (s : List Char) :
    List (List Char) :=
  let n := min (s.takeWhile p).length hi
  (List.range (n + 1)).filterMap
    (fun k => if lo ≤ k then some (s.drop k) else none)

/-- Regex `C{lo,}` over a character class: all remainders. -/
def mClassAtLeast (p : Char → Bool) (lo : Nat) (s : List Char) :
    List (List Char) :=
  let n := (s.takeWhile p).length
  (List.range (n + 1)).filterMap
    (fun k => if lo ≤ k then some (s.drop k) else none)

/-- Regex `C{lo,}\b`: as `mClassAtLeast`, additionally requiring a word
boundary after the consumed characters. -/
def mClassAtLeastBoundary (p : Char → Bool) (lo : Nat) (s : List Char) :
    List (List Char) :=
  let n := (s.takeWhile p).length
  (List.range (n + 1)).filterMap
    (fun k =>
      if lo ≤ k ∧ 1 ≤ k then
        let rest := s.drop k
        if boundaryB (some (s.getD (k - 1) ' ')) rest.head? then some rest
        else none
      else none)

/-- Regex `X+` for a unit consuming at least one character: fuel-bounded
iteration (fuel `s.length` suffices since every unit consumes ≥ 1). -/
def repPlusAux (u : List Char → List (List Char)) :
    Nat → List Char → List (List Char)
  | 0, _ => []
  | fuel + 1, s => (u s).flatMap (fun r => r :: repPlusAux u fuel r)

def repPlus (u : List Char → List (List Char)) (s : List Char) :
    List (List Char) :=
  repPlusAux u s.length s

/-- Python `re.search` truthiness: try every start position, tracking the
previous character for word-boundary tests. -/
def searchCtx (m : Option Char → List Char → List (List Char)) :
    Option Char → List Char → Bool
  | prev, [] => !(m prev []).isEmpty
  | prev, c :: cs => !(m prev (c :: cs)).isEmpty || searchCtx m (some c) cs

/-! ### The three contact patterns of `TextCleaner.__init__` -/

/-- Class `[A-Za-z0-9._%+-]`. -/
def emailLocalC (c : Char) : Bool :=
  c.isAlphanum || c = '.' || c = '_' || c = '%' || c = '+' || c = '-'

/-- Class `[A-Za-z0-9.-]`. -/
def emailDomC (c : Char) : Bool := c.isAlphanum || c = '.' || c = '-'

/-- Class `[A-Z|a-z]` (the `|` is inside the class in the source). -/
def tldC (c : Char) : Bool :=
  ('A' ≤ c && c ≤ 'Z') || c = '|' || ('a' ≤ c && c ≤ 'z')

/-- Source `email_pattern`: `\b[A-Za-z0-9._%+-]+@[A-Za-z0-9.-]+\.[A-Z|a-z]{2,}\b`. -/
def emailM (prev : Option Char) (s : List Char) : List (List Char) :=
  if boundaryB prev s.head? then
    mSeq (mClassAtLeast emailLocalC 1)
      (mSeq (mOne (fun c => c = '@'))
        (mSeq (mClassAtLeast emailDomC 1)
          (mSeq (mOne (fun c => c = '.'))
            (mClassAtLeastBoundary tldC 2)))) s
  else []

def emailSearch (s : List Char) : Bool := searchCtx emailM none s

/-- Class `[-.\s]`. -/
def sepC (c : Char) : Bool := c = '-' || c = '.' || pyIsSpace c

/-- Source `phone_pattern`:
`(\+?\d{1,3}[-.\s]?)?\(?\d{2,4}\)?[-.\s]?\d{3,4}[-.\s]?\d{3,4}`. -/
def phoneM (s : List Char) : List (List Char) :=
  mSeq
    (mOpt (mSeq (mOpt (mOne (fun c => c = '+')))
      (mSeq (mClassBetween Char.isDigit 1 3) (mOpt (mOne sepC)))))
    (mSeq (mOpt (mOne (fun c => c = '(')))
      (mSeq (mClassBetween Char.isDigit 2 4)
        (mSeq (mOpt (mOne (fun c => c = ')')))
          (mSeq (mOpt (mOne sepC))
            (mSeq (mClassBetween Char.isDigit 3 4)
              (mSeq (mOpt (mOne sepC))
                (mClassBetween Char.isDigit 3 4))))))) s

def phoneSearch (s : List Char) : Bool := searchCtx (fun _ => phoneM) none s

/-- Class `[$-_@.&+]`: the range `$`..`_` (which already contains `@. &+`). -/
def urlMidC (c : Char) : Bool := '$' ≤ c && c ≤ '_'

/-- Class `[!*\\(\\),]` = `! * \ ( ) ,`. -/
def urlPunctC (c : Char) : Bool :=
  c = '!' || c = '*' || c = '\\' || c = '(' || c = ')' || c = ','

/-- Class `[0-9a-fA-F]`. -/
def hexC (c : Char) : Bool :=
  c.isDigit || ('a' ≤ c && c ≤ 'f') || ('A' ≤ c && c ≤ 'F')

/-- One unit of the URL body alternation
`[a-zA-Z]|[0-9]|[$-_@.&+]|[!*\\(\\),]|%[0-9a-fA-F][0-9a-fA-F]`. -/
def urlUnit (s : List Char) : List (List Char) :=
  (match s with
   | c :: cs =>
     if c.isAlpha || c.isDigit || urlMidC c || urlPunctC c then [cs] else []
   | [] => []) ++
  (match s with
   | '%' :: a :: b :: cs => if hexC a && hexC b then [cs] else []
   | _ => [])

/-- Source `url_pattern`: `http[s]?://(?:...)+`. -/
def urlM (s : List Char) : List (List Char) :=
  mSeq (mLit ("http"))
    (mSeq (mOpt (mOne (fun c => c = 's')))
      (mSeq (mLit ("://")) (repPlus urlUnit))) s

def urlSearch (s : List Char) : Bool := searchCtx (fun _ => urlM) none s

/-! ### `TextCleaner.extract_name` (text_cleaner.py lines 91-130) -/

/-- Python `text.split('\n')` on a character list. -/
def pySplitNl : List Char → List (List Char)
  | [] => [[]]
  | c :: cs =>
    match pySplitNl cs with
    | [] => [[]]
    | r :: rs => if c = '\n' then [] :: r :: rs else (c :: r) :: rs

/-- Python `str.split()` (split on whitespace runs, no empty words). -/
def pySplitWsAux : List Char → List Char → List (List Char)
  | [], acc => if acc.isEmpty then [] else [acc.reverse]
  | c :: cs, acc =>
    if pyIsSpace c then
      if acc.isEmpty then pySplitWsAux cs []
      else acc.reverse :: pySplitWsAux cs []
    else pySplitWsAux cs (c :: acc)

def pySplitWs (l : List Char) : List (List Char) := pySplitWsAux l []

/-- Python `word[0].isupper()` for a word produced by `split()` (never empty;
the source's `if word` guard is vacuous there). -/
def wordCapitalized (w : List Char) : Bool :=
  match w with
  | c :: _ => c.isUpper
  | [] => true

/-- The loop body of `extract_name`: iterate over (at most 5) lines with
the source's skip/return structure. -/
def extract_name_go : List (List Char) → Option String
  | [] => none
  | l :: ls =>
    let line := pyStrip l
    if line.isEmpty then extract_name_go ls
    else if emailSearch line || phoneSearch line then extract_name_go ls
    else if urlSearch line then extract_name_go ls
    else
      let words := pySplitWs line
      if 2 ≤ words.length && words.length ≤ 4 && words.all wordCapitalized
      then some (String.mk line)
      else extract_name_go ls

/-- Source `TextCleaner.extract_name`. -/
def extract_name (text : String) : Option String :=
  extract_name_go ((pySplitNl (pyStrip text.data)).take 5)

/-! ### `TextCleaner.extract_years_of_experience`
(text_cleaner.py lines 216-270) -/

/-- Python `re.findall`: scan left to right; on a match, emit the capture and
resume at the match end; otherwise advance one character.  All matchers
fed to it consume at least one character, so the remainder guard always
takes the matched remainder and fuel `s.length` is never exhausted. -/
def findallAux (m : List Char → Option (α × List Char)) :
    Nat → List Char → List α
  | 0, _ => []
  | _ + 1, [] => []
  | fuel + 1, c :: cs =>
    match m (c :: cs) with
    | some (cap, rest) =>
      cap :: findallAux m fuel (if rest.length < cs.length + 1 then rest else cs)
    | none => findallAux m fuel cs

def findall (m : List Char → Option (α × List Char)) (s : List Char) :
    List α :=
  findallAux m s.length s

/-- Common tail `years?\s*(?:of\s*)?experience` of patterns 1 and 3. -/
def yearsExpTail (s : List Char) : Option (List Char) :=
  match lit ("year".data) s with
  | none => none
  | some s1 =>
    let s2 := match s1 with | 's' :: r => r | _ => s1
    let s3 := s2.dropWhile pyIsSpace
    let s4 :=
      match lit ("of".data) s3 with
      | some r => r.dropWhile pyIsSpace
      | none => s3
    lit ("experience".data) s4

/-- Pattern `(\d+)\+?\s*years?\s*(?:of\s*)?experience`. -/
def matchYears1 (s : List Char) : Option (List Char × List Char) :=
  let ds := s.takeWhile Char.isDigit
  if ds.isEmpty then none
  else
    let s1 := s.dropWhile Char.isDigit
    let s2 := match s1 with | '+' :: r => r | _ => s1
    let s3 := s2.dropWhile pyIsSpace
    match yearsExpTail s3 with
    | some r => some (ds, r)
    | none => none

/-- Pattern `experience[:\s]+(\d+)\+?\s*years?`. -/
def matchYears2 (s : List Char) : Option (List Char × List Char) :=
  match lit ("experience".data) s with
  | none => none
  | some s1 =>
    let sepP := fun c => c = ':' || pyIsSpace c
    if (s1.takeWhile sepP).isEmpty then none
    else
      let s2 := s1.dropWhile sepP
      let ds := s2.takeWhile Char.isDigit
      if ds.isEmpty then none
      else
        let s3 := s2.dropWhile Char.isDigit
        let s4 := match s3 with | '+' :: r => r | _ => s3
        let s5 := s4.dropWhile pyIsSpace
        match lit ("year".data) s5 with
        | none => none
        | some s6 => some (ds, match s6 with | 's' :: r => r | _ => s6)

/-- Pattern `(\d+)\s*-\s*\d+\s*years?\s*(?:of\s*)?experience`. -/
def matchYears3 (s : List Char) : Option (List Char × List Char) :=
  let ds := s.takeWhile Char.isDigit
  if ds.isEmpty then none
  else
    match (s.dropWhile Char.isDigit).dropWhile pyIsSpace with
    | '-' :: s2 =>
      let s3 := s2.dropWhile pyIsSpace
      if (s3.takeWhile Char.isDigit).isEmpty then none
      else
        let s4 := (s3.dropWhile Char.isDigit).dropWhile pyIsSpace
        match yearsExpTail s4 with
        | some r => some (ds, r)
        | none => none
    | _ => none

/-- Exactly four digit characters (regex `\d{4}`). -/
def take4Digits (s : List Char) : Option (List Char × List Char) :=
  match s with
  | a :: b :: c :: d :: r =>
    if a.isDigit && b.isDigit && c.isDigit && d.isDigit then
      some ([a, b, c, d], r)
    else none
  | _ => none

/-- Pattern `(\d{4})\s*-\s*(\d{4})`: two capture groups, so `re.findall`
yields pairs of strings. -/
def matchDateRange (s : List Char) :
    Option ((List Char × List Char) × List Char) :=
  match take4Digits s with
  | none => none
  | some (y1, s1) =>
    match s1.dropWhile pyIsSpace with
    | '-' :: s2 =>
      match take4Digits (s2.dropWhile pyIsSpace) with
      | some (y2, s3) => some ((y1, y2), s3)
      | none => none
    | _ => none

/-- Pattern `(\d{4})\s*-\s*(?:present|current)`: a single capture group,
so `re.findall` yields plain strings (the captured year). -/
def matchDatePresent (s : List Char) : Option (List Char × List Char) :=
  match take4Digits s with
  | none => none
  | some (y1, s1) =>
    match s1.dropWhile pyIsSpace with
    | '-' :: s2 =>
      let s3 := s2.dropWhile pyIsSpace
      match lit ("present".data) s3 with
      | some r => some (y1, r)
      | none =>
        match lit ("current".data) s3 with
        | some r => some (y1, r)
        | none => none
    | _ => none

/-- Python `int()` on a digit string. -/
def intOfDigits (ds : List Char) : ℤ :=
  ds.foldl (fun acc c => acc * 10 + ((c.toNat - '0'.toNat : Nat) : ℤ)) 0

/-- Python `str.isdigit()`. -/
def pyStrIsdigit (s : List Char) : Bool := !s.isEmpty && s.all Char.isDigit

/-- Source `TextCleaner.extract_years_of_experience`. -/
def extract_years_of_experience (text : String) : ℤ :=
  let t := text.data.map Char.toLower
  let explicitCaps :=
    findall matchYears1 t ++ findall matchYears2 t ++ findall matchYears3 t
  let max_years : ℤ :=
    explicitCaps.foldl (fun acc ds => max acc (intOfDigits ds)) 0
  let current_year : ℤ := 2024
  -- first date pattern: `match` is a pair, `len(match) > 1` holds and
  -- `match[1]` is the second captured year string
  let total1 : ℤ :=
    (findall matchDateRange t).foldl
      (fun acc yy =>
        let start_year := intOfDigits yy.1
        let end_year :=
          if pyStrIsdigit yy.2 then intOfDigits yy.2 else current_year
        let duration := end_year - start_year
        if 0 < duration && duration < 50 then acc + duration else acc) 0
  -- second date pattern: `match` is the captured 4-digit STRING, so the
  -- source's `match[0]` and `match[1]` are its first two characters and
  -- `int(...)` of them are single digits; the `current_year` branch is
  -- unreachable there
  let total_experience : ℤ :=
    (findall matchDatePresent t).foldl
      (fun acc m =>
        let start_year := intOfDigits (m.take 1)
        let end_year :=
          if m.length > 1 && pyStrIsdigit ((m.drop 1).take 1) then
            intOfDigits ((m.drop 1).take 1)
          else current_year
        let duration := end_year - start_year
        if 0 < duration && duration < 50 then acc + duration else acc) total1
  max max_years total_experience

/-! ## `skill_database.py` / `skill_extractor.py` -/

def seniorKeywords : List String :=
  ["Senior", "Lead", "Principal", "Staff", "Architect", "Chief",
   "Director", "VP", "Head of"]

def midKeywords : List String :=
  ["Mid-level", "Intermediate", "Mid", "Experienced"]

def juniorKeywords : List String :=
  ["Junior", "Entry-level", "Graduate", "Associate", "Assistant"]

def internKeywords : List String :=
  ["Intern", "Internship", "Trainee", "Apprentice"]

/-- Source `EXPERIENCE_KEYWORDS` (skill_database.py lines 145-150), in the
dict's insertion order. -/
def EXPERIENCE_KEYWORDS : List (String × List String) :=
  [("senior", seniorKeywords), ("mid", midKeywords),
   ("junior", juniorKeywords), ("intern", internKeywords)]

def listStartsWith : List Char → List Char → Bool
  | [], _ => true
  | _ :: _, [] => false
  | p :: ps, c :: cs => p = c && listStartsWith ps cs

/-- Python `pat in s` on strings: substring containment. -/
def isSubstrOf (pat : List Char) : List Char → Bool
  | [] => listStartsWith pat []
  | c :: cs => listStartsWith pat (c :: cs) || isSubstrOf pat cs

/-- Whether some keyword of a group occurs (lowercased) in the lowered
text.  The source's inner loop returns the level at its first matching
keyword; since the value returned is the level itself, the result only
depends on whether any keyword of the group matches. -/
def groupMatches (t : List Char) (kws : List String) : Bool :=
  kws.any (fun k => isSubstrOf ((pyLower k).data) t)

def extract_experience_level_go (t : List Char) :
    List (String × List String) → String
  | [] => "unknown"
  | (level, kws) :: rest =>
    if groupMatches t kws then level else extract_experience_level_go t rest

/-- Source `SkillExtractor.extract_experience_level`
(skill_extractor.py lines 194-216). -/
def extract_experience_level (text : String) : String :=
  extract_experience_level_go ((pyLower text).data) EXPERIENCE_KEYWORDS

/-! ## Specification-side reformulations -/

/-- The pre-rounding overall score of a fit result, reconstructed from
its returned sub-scores and weights; `calculate_overall_fit_score`
derives `fit_level` from exactly this weighted sum (the stored
`overall_score` field is this value rounded to two decimals). -/
def overallRawOf (r : FitResult) : ℚ :=
  r.skill_match.match_percentage * r.weights_used.skills +
  r.experience_match.score * r.weights_used.experience +
  r.education_match.score * r.weights_used.education +
  r.text_similarity * r.weights_used.text_similarity +
  r.semantic_similarity * r.weights_used.semantic_similarity

/-- The per-line qualification test of `extract_name`, as one predicate:
non-empty, no email/phone/URL match, and 2-4 words each starting with an
uppercase letter. -/
def isNameLine (l : List Char) : Bool :=
  !l.isEmpty && !(emailSearch l || phoneSearch l) && !urlSearch l &&
  (2 ≤ (pySplitWs l).length && (pySplitWs l).length ≤ 4 &&
    (pySplitWs l).all wordCapitalized)

/-- First-qualifying-line reformulation of `extract_name`: among the
first 5 lines of the stripped text (empty lines counting toward the 5),
the first whose stripped form qualifies, returned stripped. -/
def extractNameFirst5Lines (text : String) : Option String :=
  ((pySplitNl (pyStrip text.data)).take 5).findSome?
    (fun l =>
      if isNameLine (pyStrip l) then some (String.mk (pyStrip l)) else none)

/-- Modelled from the claim's words (not from the source): examine at
most the first 5 NON-EMPTY lines — i.e. filter empty lines out before
applying the five-line window — skip contact lines, and return the first
remaining line with 2-4 words each starting uppercase. -/
def claimNameModel (text : String) : Option String :=
  (((((pySplitNl (pyStrip text.data)).map pyStrip).filter
      (fun l => !l.isEmpty))).take 5).findSome?
    (fun l => if isNameLine l then some (String.mk l) else none)

/-! ## Helper lemmas -/

lemma ratFloor_eq (q : ℚ) : ratFloor q = ⌊q⌋ := by
  rw [Rat.floor_def]; rfl

lemma pyRound_eq (q : ℚ) : pyRound q = round q := by
  rw [round_eq, ← ratFloor_eq]; rfl

lemma round2_eq (q : ℚ) : round2 q = (⌊q * 100 + 1/2⌋ : ℚ) / 100 := by
  rw [round2, pyRound, ratFloor_eq]

/-- Evaluation rule for `round2` at concrete rationals. -/
lemma round2_eq_of (q : ℚ) (n : ℤ) (h1 : (n : ℚ) ≤ q * 100 + 1/2)
    (h2 : q * 100 + 1/2 < n + 1) : round2 q = (n : ℚ) / 100 := by
  rw [round2_eq]
  congr 1
  norm_cast
  rw [Int.floor_eq_iff]
  · exact ⟨h1, h2⟩

lemma round2_mono {x y : ℚ} (h : x ≤ y) : round2 x ≤ round2 y := by
  rw [round2_eq, round2_eq]
  have h1 : ⌊x * 100 + 1/2⌋ ≤ ⌊y * 100 + 1/2⌋ := Int.floor_mono (by linarith)
  have h2 : ((⌊x * 100 + 1/2⌋ : ℤ) : ℚ) ≤ ((⌊y * 100 + 1/2⌋ : ℤ) : ℚ) := by
    exact_mod_cast h1
  linarith

lemma round2_intCast (n : ℤ) : round2 (n : ℚ) = n := by
  rw [round2_eq]
  have h : ⌊(n : ℚ) * 100 + 1/2⌋ = n * 100 := by
    rw [Int.floor_eq_iff]
    push_cast
    constructor <;> linarith
  rw [h]; push_cast; ring

lemma round2_hundred : round2 100 = 100 := by
  have := round2_intCast 100
  push_cast at this
  simpa using this

lemma round2_le_int (q : ℚ) (n : ℤ) (h : q ≤ (n : ℚ)) : round2 q ≤ (n : ℚ) := by
  have h1 : round2 q ≤ round2 (n : ℚ) := round2_mono h
  rwa [round2_intCast] at h1

lemma mem_toLowerSet_iff (l : List String) (s : String) :
    s ∈ toLowerSet l ↔ ∃ b ∈ l, pyLower b = s := by
  simp [toLowerSet, List.mem_dedup, List.mem_map]

/-- Mapping an original-case selection (`[s for s in J if s.lower() in sub]`)
back through `lower` hits exactly the elements of `sub`, provided `sub`
only holds lowered forms of `J`'s elements. -/
lemma mem_origCase_iff (J sub : List String)
    (hsub : ∀ x ∈ sub, x ∈ toLowerSet J) (s : String) :
    s ∈ (J.filter (fun b => pyLower b ∈ sub)).map pyLower ↔ s ∈ sub := by
  simp only [List.mem_map, List.mem_filter, decide_eq_true_eq]
  constructor
  · rintro ⟨b, ⟨_, hbsub⟩, rfl⟩
    exact hbsub
  · intro hs
    obtain ⟨b, hbJ, hb⟩ := (mem_toLowerSet_iff J s).1 (hsub s hs)
    refine ⟨b, ⟨hbJ, ?_⟩, hb⟩
    rw [hb]
    exact hs

lemma toLowerSet_ne_nil (B : List String) (h : B ≠ []) : toLowerSet B ≠ [] := by
  intro hc
  rw [toLowerSet, List.dedup_eq_nil, List.map_eq_nil_iff] at hc
  exact h hc

lemma education_score_le_100 (re je : String) :
    (calculate_education_match re je).score ≤ 100 := by
  simp only [calculate_education_match]
  split_ifs with h1 h2
  · norm_num
  · norm_num
  · dsimp only
    push_neg at h2
    have hj : 0 < (education_hierarchy je : ℚ) := by
      have : 0 < education_hierarchy je := Nat.pos_of_ne_zero h1
      exact_mod_cast this
    have hle : ((education_hierarchy re : ℚ) / (education_hierarchy je : ℚ)) ≤ 1 := by
      rw [div_le_one hj]
      have : education_hierarchy re ≤ education_hierarchy je := le_of_lt h2
      exact_mod_cast this
    have hq : ((education_hierarchy re : ℚ) / (education_hierarchy je : ℚ)) * 70 ≤ 70 := by
      nlinarith
    have hb := round2_le_int
      ((education_hierarchy re : ℚ) / (education_hierarchy je : ℚ) * 70) 100
      (by push_cast; linarith)
    push_cast at hb
    linarith

lemma extract_name_go_eq (ls : List (List Char)) :
    extract_name_go ls = ls.findSome?
      (fun l => if isNameLine (pyStrip l) then some (String.mk (pyStrip l))
                else none) := by
  induction ls with
  | nil => rfl
  | cons l ls ih =>
    rw [List.findSome?_cons]
    by_cases h1 : (pyStrip l).isEmpty
    · have hn : isNameLine (pyStrip l) = false := by simp [isNameLine, h1]
      simp [extract_name_go, h1, hn, ih]
    · by_cases h2 : emailSearch (pyStrip l) || phoneSearch (pyStrip l)
      · have hn : isNameLine (pyStrip l) = false := by simp [isNameLine, h2]
        simp [extract_name_go, h1, h2, hn, ih]
      · by_cases h3 : urlSearch (pyStrip l)
        · have hn : isNameLine (pyStrip l) = false := by simp [isNameLine, h3]
          simp [extract_name_go, h1, h2, h3, hn, ih]
        · by_cases h4 : (2 ≤ (pySplitWs (pyStrip l)).length &&
              (pySplitWs (pyStrip l)).length ≤ 4 &&
              (pySplitWs (pyStrip l)).all wordCapitalized)
          · have hn : isNameLine (pyStrip l) = true := by
              simp only [isNameLine]
              simp_all
            simp [extract_name_go, h1, h2, h3, h4, hn]
          · have hn : isNameLine (pyStrip l) = false := by
              simp only [isNameLine]
              simp_all
            simp [extract_name_go, h1, h2, h3, h4, hn, ih]

/-! ## Claim theorems -/

/-- Claim C1, amended: for every candidate skill list `A` and non-empty
required skill list `B`, `calculate_skill_match A B` returns a
`match_percentage` equal to `100 * |A' ∩ B'| / |B'|` ROUNDED TO TWO
DECIMALS (where `A'`, `B'` are the lowercased sets), and the returned
`matched_skills` and `missing_skills`, compared case-insensitively as
sets, are disjoint with union equal to `B'`. -/
theorem skill_match_spec (A B : List String) (h : B ≠ []) :
    (calculate_skill_match A B).match_percentage =
      round2 (100 * (((toLowerSet B).filter (fun s => s ∈ toLowerSet A)).length : ℚ) /
        ((toLowerSet B).length : ℚ)) ∧
    (∀ s, s ∈ (calculate_skill_match A B).matched_skills.map pyLower →
      s ∉ (calculate_skill_match A B).missing_skills.map pyLower) ∧
    (∀ s, (s ∈ (calculate_skill_match A B).matched_skills.map pyLower ∨
        s ∈ (calculate_skill_match A B).missing_skills.map pyLower) ↔
      s ∈ toLowerSet B) := by
  have hB : toLowerSet B ≠ [] := toLowerSet_ne_nil B h
  unfold calculate_skill_match
  rw [if_neg h]
  dsimp only
  rw [if_neg hB]
  have hmem1 : ∀ s, s ∈ ((B.filter (fun b =>
      pyLower b ∈ (toLowerSet B).filter (fun x => x ∈ toLowerSet A))).map pyLower) ↔
      s ∈ (toLowerSet B).filter (fun x => x ∈ toLowerSet A) := by
    intro s
    exact mem_origCase_iff B _ (fun x hx => (List.mem_filter.1 hx).1) s
  have hmem2 : ∀ s, s ∈ ((B.filter (fun b =>
      pyLower b ∈ (toLowerSet B).filter (fun x => x ∉ toLowerSet A))).map pyLower) ↔
      s ∈ (toLowerSet B).filter (fun x => x ∉ toLowerSet A) := by
    intro s
    exact mem_origCase_iff B _ (fun x hx => (List.mem_filter.1 hx).1) s
  refine ⟨?_, ?_, ?_⟩
  · congr 1
    ring
  · intro s hs1 hs2
    have h1 := (hmem1 s).1 hs1
    have h2 := (hmem2 s).1 hs2
    rw [List.mem_filter] at h1 h2
    simp only [decide_eq_true_eq] at h1 h2
    rcases h1 with ⟨_, hin⟩
    rcases h2 with ⟨_, hnin⟩
    exact hnin hin
  · intro s
    rw [hmem1 s, hmem2 s]
    simp only [List.mem_filter, decide_eq_true_eq, Bool.not_eq_true',
      decide_eq_false_iff_not]
    by_cases hs : s ∈ toLowerSet A <;> by_cases hb : s ∈ toLowerSet B <;>
      simp [hs, hb]

/-- Claim C1, counterexample to the claim as stated: with candidate
`["a"]` and required `["a", "b", "c"]` the intersection has 1 element of
3 required, and the returned percentage `33.33` is the rounded value, not
the exact rational `100 * 1/3`. -/
theorem skill_match_claim_counterexample :
    (calculate_skill_match ["a"] ["a", "b", "c"]).match_percentage ≠
      100 * ((((toLowerSet ["a", "b", "c"]).filter
          (fun s => s ∈ toLowerSet ["a"])).length : ℚ) /
        ((toLowerSet ["a", "b", "c"]).length : ℚ)) := by
  have h : (calculate_skill_match ["a"] ["a", "b", "c"]).match_percentage = 3333/100 := by
    simp +decide [calculate_skill_match, toLowerSet, pyLower]
    rw [round2_eq_of _ 3333] <;> norm_num
  rw [h]
  have h2 : (((toLowerSet ["a", "b", "c"]).filter
      (fun s => s ∈ toLowerSet ["a"])).length : ℚ) = 1 := by
    norm_num [toLowerSet, pyLower]
    decide
  have h3 : (((toLowerSet ["a", "b", "c"])).length : ℚ) = 3 := by
    norm_num [toLowerSet, pyLower]
    decide
  rw [h2, h3]
  norm_num

/-- Claim C1, witness: the amended theorem applied to candidate
`["python"]` and required `["Python", "Docker"]`. -/
theorem skill_match_spec_witness :
    (["Python", "Docker"] : List String) ≠ [] ∧
    ((calculate_skill_match ["python"] ["Python", "Docker"]).match_percentage =
      round2 (100 * (((toLowerSet ["Python", "Docker"]).filter
          (fun s => s ∈ toLowerSet ["python"])).length : ℚ) /
        ((toLowerSet ["Python", "Docker"]).length : ℚ)) ∧
     (∀ s, s ∈ (calculate_skill_match ["python"] ["Python", "Docker"]).matched_skills.map pyLower →
       s ∉ (calculate_skill_match ["python"] ["Python", "Docker"]).missing_skills.map pyLower) ∧
     (∀ s, (s ∈ (calculate_skill_match ["python"] ["Python", "Docker"]).matched_skills.map pyLower ∨
         s ∈ (calculate_skill_match ["python"] ["Python", "Docker"]).missing_skills.map pyLower) ↔
       s ∈ toLowerSet ["Python", "Docker"])) :=
  ⟨by decide, skill_match_spec (["python"]) (["Python", "Docker"]) (by decide)⟩

/-- Claim C2, amended: for a non-empty required list, `match_percentage`
equals `total_matched` divided by the number of DISTINCT lowercased
required skills, times 100, rounded to two decimals; it equals
`total_matched / total_required * 100` (rounded) whenever the required
list has no case-insensitive duplicates — with duplicates,
`total_required` counts raw entries while the percentage uses the
deduplicated set, and the stated invariant fails. -/
theorem skill_match_percentage_invariant (R J : List String) (h : J ≠ []) :
    ((calculate_skill_match R J).match_percentage =
      round2 (((calculate_skill_match R J).total_matched : ℚ) /
        ((toLowerSet J).length : ℚ) * 100)) ∧
    ((J.map pyLower).Nodup →
      (calculate_skill_match R J).match_percentage =
        round2 (((calculate_skill_match R J).total_matched : ℚ) /
          ((calculate_skill_match R J).total_required : ℚ) * 100)) := by
  have hJ : toLowerSet J ≠ [] := toLowerSet_ne_nil J h
  unfold calculate_skill_match
  rw [if_neg h]
  dsimp only
  rw [if_neg hJ]
  constructor
  · rfl
  · intro hnd
    have hd : (J.map pyLower).dedup = J.map pyLower := List.dedup_eq_self.2 hnd
    have hlen : (toLowerSet J).length = J.length := by
      rw [toLowerSet, hd, List.length_map]
    rw [hlen]

/-- Claim C2, counterexample to the claim as stated: with candidate
`["python"]` and required `["Python", "python"]` (case-variant
duplicates), the code returns `match_percentage = 100` but
`total_matched / total_required * 100 = 50`. -/
theorem skill_match_invariant_counterexample :
    (calculate_skill_match ["python"] ["Python", "python"]).match_percentage ≠
      ((calculate_skill_match ["python"] ["Python", "python"]).total_matched : ℚ) /
        ((calculate_skill_match ["python"] ["Python", "python"]).total_required : ℚ) * 100 := by
  have h1 : (calculate_skill_match ["python"] ["Python", "python"]).match_percentage = 100 := by
    simp +decide [calculate_skill_match, toLowerSet, pyLower]
    norm_num [round2_eq]
  have h2 : (calculate_skill_match ["python"] ["Python", "python"]).total_matched = 1 := by
    decide
  have h3 : (calculate_skill_match ["python"] ["Python", "python"]).total_required = 2 := by
    decide
  rw [h1, h2, h3]
  norm_num

/-- Claim C2, witness: the amended theorem applied to candidate `["a"]`
and the duplicate-free required list `["a", "b"]`. -/
theorem skill_match_percentage_invariant_witness :
    (["a", "b"] : List String) ≠ [] ∧
    (List.map pyLower ["a", "b"]).Nodup ∧
    (calculate_skill_match ["a"] ["a", "b"]).match_percentage =
      round2 (((calculate_skill_match ["a"] ["a", "b"]).total_matched : ℚ) /
        ((calculate_skill_match ["a"] ["a", "b"]).total_required : ℚ) * 100) :=
  ⟨by decide, by decide,
   (skill_match_percentage_invariant (["a"]) (["a", "b"]) (by decide)).2 (by decide)⟩

/-- Claim C3: for every candidate profile, requisition profile, oracle
similarity functions and weights, the `experience_match` of
`calculate_overall_fit_score` is the constant `{score := 100,
meets_requirement := true, difference := 0}`, because the required-years
argument passed to `calculate_experience_match` is the constant 0. -/
theorem overall_fit_experience_constant (tf sf : String → String → ℚ)
    (ut : Bool) (rd jd : ProfileData) (w : Option Weights) :
    (calculate_overall_fit_score tf sf ut rd jd w).experience_match =
      { score := 100, meets_requirement := true, difference := 0 } := by
  unfold calculate_overall_fit_score
  simp [calculate_experience_match]

/-- Claim C4, amended: for integers `c ≥ 0` (candidate years) and
`r ≥ 0` (required years): if `r = 0` the result is score 100,
requirement met, and difference 0 (NOT `c - r`: the zero-requirement
branch returns a hard-coded difference of 0); if `0 < r ≤ c` the result
is score 100, requirement met, difference `c - r`; if `0 ≤ c < r` the
score is `c / r * 100` rounded to two decimals, the requirement is not
met, and the difference is `c - r`. -/
theorem experience_match_spec (c r : ℤ) (_hc : 0 ≤ c) (_hr : 0 ≤ r) :
    (r = 0 → calculate_experience_match c r =
        { score := 100, meets_requirement := true, difference := 0 }) ∧
    (0 < r → r ≤ c → calculate_experience_match c r =
        { score := 100, meets_requirement := true, difference := c - r }) ∧
    (0 < r → c < r →
      (calculate_experience_match c r).score = round2 ((c : ℚ) / (r : ℚ) * 100) ∧
      (calculate_experience_match c r).meets_requirement = false ∧
      (calculate_experience_match c r).difference = c - r) := by
  refine ⟨?_, ?_, ?_⟩
  · intro h
    subst h
    simp [calculate_experience_match]
  · intro h1 h2
    have hne : ¬(r = 0) := by omega
    have hge : c ≥ r := h2
    simp [calculate_experience_match, hne, hge, round2_hundred]
  · intro h1 h2
    have hne : ¬(r = 0) := by omega
    have hnge : ¬(c ≥ r) := by omega
    simp [calculate_experience_match, hne, hnge]

/-- Claim C4, counterexample to the claim as stated: at
`(candidateYears, requiredYears) = (3, 0)` the returned difference is 0,
not `3 - 0`; and at `(1, 3)` the returned score is the rounded `33.33`,
not the exact rational `1/3 * 100`. -/
theorem experience_match_claim_counterexample :
    (calculate_experience_match 3 0).difference ≠ 3 - 0 ∧
    (calculate_experience_match 1 3).score ≠ (1 : ℚ) / 3 * 100 := by
  constructor
  · simp [calculate_experience_match]
  · have h : (calculate_experience_match 1 3).score = 3333/100 := by
      norm_num [calculate_experience_match]
      rw [round2_eq_of _ 3333] <;> norm_num
    rw [h]
    norm_num

/-- Claim C4, witness: the amended theorem applied at candidate years 3
and required years 5 (the specification's end-to-end scenario 2). -/
theorem experience_match_spec_witness :
    (0 : ℤ) ≤ 3 ∧ (0 : ℤ) ≤ 5 ∧
    ((calculate_experience_match 3 5).score = round2 ((3 : ℚ) / 5 * 100) ∧
     (calculate_experience_match 3 5).meets_requirement = false ∧
     (calculate_experience_match 3 5).difference = 3 - 5) :=
  ⟨by norm_num, by norm_num,
   (experience_match_spec 3 5 (by norm_num) (by norm_num)).2.2 (by norm_num) (by norm_num)⟩

/-- Claim C5, amended: `calculate_education_match` returns score 100 when
the required level is unranked, score 100 when the candidate's rank is at
least the (positive) required rank, and otherwise
`candidateRank / requiredRank * 70` rounded to two decimals — hence never
more than 70 when under-qualified — with `meets_requirement = false`; for
a fixed required level the score is monotone non-decreasing in the
candidate's rank. -/
theorem education_match_spec (re je : String) :
    (education_hierarchy je = 0 → calculate_education_match re je =
        { score := 100, meets_requirement := true }) ∧
    (education_hierarchy je ≠ 0 →
      education_hierarchy je ≤ education_hierarchy re →
      calculate_education_match re je =
        { score := 100, meets_requirement := true }) ∧
    (education_hierarchy je ≠ 0 →
      education_hierarchy re < education_hierarchy je →
      ((calculate_education_match re je).score =
        round2 ((education_hierarchy re : ℚ) / (education_hierarchy je : ℚ) * 70) ∧
       (calculate_education_match re je).score ≤ 70 ∧
       (calculate_education_match re je).meets_requirement = false)) ∧
    (∀ r1 r2 : String, education_hierarchy r1 ≤ education_hierarchy r2 →
      (calculate_education_match r1 je).score ≤ (calculate_education_match r2 je).score) := by
  refine ⟨?_, ?_, ?_, ?_⟩
  · intro h
    simp [calculate_education_match, h]
  · intro h1 h2
    simp [calculate_education_match, h1, h2]
  · intro h1 h2
    have hnge : ¬(education_hierarchy re ≥ education_hierarchy je) := by omega
    have hj : 0 < (education_hierarchy je : ℚ) := by
      have : 0 < education_hierarchy je := Nat.pos_of_ne_zero h1
      exact_mod_cast this
    refine ⟨?_, ?_, ?_⟩
    · simp [calculate_education_match, h1, hnge]
    · have hle : ((education_hierarchy re : ℚ) / (education_hierarchy je : ℚ)) ≤ 1 := by
        rw [div_le_one hj]
        exact_mod_cast le_of_lt h2
      have hq : ((education_hierarchy re : ℚ) / (education_hierarchy je : ℚ)) * 70 ≤ 70 := by
        nlinarith
      have hb := round2_le_int
        ((education_hierarchy re : ℚ) / (education_hierarchy je : ℚ) * 70) 70
        (by push_cast; linarith)
      push_cast at hb
      have hs : (calculate_education_match re je).score =
          round2 ((education_hierarchy re : ℚ) / (education_hierarchy je : ℚ) * 70) := by
        simp [calculate_education_match, h1, hnge]
      rw [hs]
      linarith
    · simp [calculate_education_match, h1, hnge]
  · intro r1 r2 hle
    by_cases hj0 : education_hierarchy je = 0
    · simp [calculate_education_match, hj0]
    · have hj : 0 < (education_hierarchy je : ℚ) := by
        have : 0 < education_hierarchy je := Nat.pos_of_ne_zero hj0
        exact_mod_cast this
      by_cases h2 : education_hierarchy je ≤ education_hierarchy r2
      · have hs2 : (calculate_education_match r2 je).score = 100 := by
          simp [calculate_education_match, hj0, h2]
        rw [hs2]
        exact education_score_le_100 r1 je
      · have h1 : ¬(education_hierarchy je ≤ education_hierarchy r1) := by omega
        have hs1 : (calculate_education_match r1 je).score =
            round2 ((education_hierarchy r1 : ℚ) / (education_hierarchy je : ℚ) * 70) := by
          simp [calculate_education_match, hj0, h1]
        have hs2 : (calculate_education_match r2 je).score =
            round2 ((education_hierarchy r2 : ℚ) / (education_hierarchy je : ℚ) * 70) := by
          simp [calculate_education_match, hj0, h2]
        rw [hs1, hs2]
        apply round2_mono
        have hc : (education_hierarchy r1 : ℚ) ≤ (education_hierarchy r2 : ℚ) := by
          exact_mod_cast hle
        have := (div_le_div_iff_of_pos_right hj).2 hc
        nlinarith

/-- Claim C5, counterexample to the claim as stated: for candidate level
`high_school` (rank 1) against required `phd` (rank 6) the returned score
is the rounded `11.67`, not the exact rational `1/6 * 70`. -/
theorem education_match_claim_counterexample :
    (calculate_education_match ("high_school") ("phd")).score ≠
      (education_hierarchy ("high_school") : ℚ) /
        (education_hierarchy ("phd") : ℚ) * 70 := by
  have h : (calculate_education_match ("high_school") ("phd")).score = 1167/100 := by
    simp +decide [calculate_education_match, education_hierarchy]
    rw [round2_eq_of _ 1167] <;> norm_num
  rw [h]
  simp +decide [education_hierarchy]
  norm_num

/-- Claim C5, witness: the amended theorem applied to candidate
`bachelors` (rank 4) against required `masters` (rank 5) — the
specification's end-to-end scenario 3. -/
theorem education_match_spec_witness :
    education_hierarchy ("masters") ≠ 0 ∧
    education_hierarchy ("bachelors") < education_hierarchy ("masters") ∧
    ((calculate_education_match ("bachelors") ("masters")).score =
      round2 ((education_hierarchy ("bachelors") : ℚ) /
        (education_hierarchy ("masters") : ℚ) * 70) ∧
     (calculate_education_match ("bachelors") ("masters")).score ≤ 70 ∧
     (calculate_education_match ("bachelors") ("masters")).meets_requirement = false) :=
  ⟨by decide, by decide,
   (education_match_spec ("bachelors") ("masters")).2.2.1 (by decide) (by decide)⟩

/-- Claim C6: for every candidate skill list `A`, calling
`calculate_skill_match` with an empty required list returns percentage 0
and empty matched/missing lists (a defined default, not an error). -/
theorem skill_match_empty_requirements (A : List String) :
    (calculate_skill_match A []).match_percentage = 0 ∧
    (calculate_skill_match A []).matched_skills = [] ∧
    (calculate_skill_match A []).missing_skills = [] := by
  simp [calculate_skill_match]

/-- Claim C7: the `fit_level` assigned by `calculate_overall_fit_score`
is the step function of the (pre-rounding) overall weighted score with
inclusive lower boundaries at 40, 60 and 80: below 40 gives Poor, `[40,
60)` gives Fair, `[60, 80)` gives Good, and 80 or above gives Excellent
(so exactly 80 gives Excellent). -/
theorem fit_level_thresholds (tf sf : String → String → ℚ) (ut : Bool)
    (rd jd : ProfileData) (w : Option Weights) :
    (overallRawOf (calculate_overall_fit_score tf sf ut rd jd w) < 40 →
      (calculate_overall_fit_score tf sf ut rd jd w).fit_level = "Poor") ∧
    (40 ≤ overallRawOf (calculate_overall_fit_score tf sf ut rd jd w) →
      overallRawOf (calculate_overall_fit_score tf sf ut rd jd w) < 60 →
      (calculate_overall_fit_score tf sf ut rd jd w).fit_level = "Fair") ∧
    (60 ≤ overallRawOf (calculate_overall_fit_score tf sf ut rd jd w) →
      overallRawOf (calculate_overall_fit_score tf sf ut rd jd w) < 80 →
      (calculate_overall_fit_score tf sf ut rd jd w).fit_level = "Good") ∧
    (80 ≤ overallRawOf (calculate_overall_fit_score tf sf ut rd jd w) →
      (calculate_overall_fit_score tf sf ut rd jd w).fit_level = "Excellent") := by
  unfold calculate_overall_fit_score overallRawOf
  dsimp only
  split_ifs with h1 h2 h3 <;>
    refine ⟨?_, ?_, ?_, ?_⟩ <;> intros <;> first | rfl | linarith

/-- Claim C7, witness: a configuration whose weighted sum is exactly 80
(all weight on skills, weight 0.8, identical one-skill profiles) is
labelled Excellent. -/
theorem fit_level_thresholds_witness :
    80 ≤ overallRawOf (calculate_overall_fit_score (fun _ _ => 0) (fun _ _ => 0)
      false ⟨["python"], 0, "unknown", ""⟩ ⟨["python"], 0, "unknown", ""⟩
      (some ⟨8/10, 0, 0, 0, 0⟩)) ∧
    (calculate_overall_fit_score (fun _ _ => 0) (fun _ _ => 0)
      false ⟨["python"], 0, "unknown", ""⟩ ⟨["python"], 0, "unknown", ""⟩
      (some ⟨8/10, 0, 0, 0, 0⟩)).fit_level = "Excellent" := by
  have hpct : (calculate_skill_match ["python"] ["python"]).match_percentage = 100 := by
    simp +decide [calculate_skill_match, toLowerSet, pyLower]
    norm_num [round2_eq]
  have h80 : 80 ≤ overallRawOf (calculate_overall_fit_score (fun _ _ => 0) (fun _ _ => 0)
      false ⟨["python"], 0, "unknown", ""⟩ ⟨["python"], 0, "unknown", ""⟩
      (some ⟨8/10, 0, 0, 0, 0⟩)) := by
    simp [overallRawOf, calculate_overall_fit_score, calculate_experience_match,
      calculate_education_match, education_hierarchy, hpct]
    norm_num
  exact ⟨h80, (fit_level_thresholds (fun _ _ => 0) (fun _ _ => 0)
    false ⟨["python"], 0, "unknown", ""⟩ ⟨["python"], 0, "unknown", ""⟩
    (some ⟨8/10, 0, 0, 0, 0⟩)).2.2.2 h80⟩

/-- Claim C8: evaluation of the embedded
`extract_years_of_experience` at the failing input `"2019 - present"`.
The claim (and the source's own comment and `current_year` variable) says
a `YYYY - present` range contributes `currentYear - YYYY` years, but the
single-group `re.findall` returns the captured year STRING, whose first
two characters are then read as the start and end years, producing a
negative duration that the sanity bound discards — so the function
returns 0 instead of the intended 5. -/
theorem years_of_experience_present_bug :
    extract_years_of_experience ("2019 - present") = 0 := by decide

/-- Claim C9, amended: `extract_name` examines at most the first 5 LINES
of the stripped text (empty lines count toward the window although they
are skipped), skips lines containing an email, phone, or URL match, and
returns the first examined line whose stripped form has 2-4 words each
starting with an uppercase letter — i.e. it equals the
first-qualifying-line function `extractNameFirst5Lines`. -/
theorem extract_name_first5 (text : String) :
    extract_name text = extractNameFirst5Lines text := by
  unfold extract_name extractNameFirst5Lines
  exact extract_name_go_eq _

/-- Claim C9, counterexample to the claim as stated: in
`"x\n\n\n\n\nJohn Smith"` the first 5 NON-EMPTY lines are `"x"` and
`"John Smith"`, and the claim's reading returns `"John Smith"`
(`claimNameModel`); the code examines the first 5 raw lines, never sees
`"John Smith"`, and returns none. -/
theorem extract_name_claim_counterexample :
    extract_name ("x\n\n\n\n\nJohn Smith") = none ∧
    claimNameModel ("x\n\n\n\n\nJohn Smith") = some ("John Smith") := by
  constructor <;> decide

/-- Claim C10: `extract_experience_level` returns the first seniority
level in the fixed priority order senior, mid, junior, intern whose
keyword group has a member occurring case-insensitively in the text, and
`"unknown"` when no group matches; the group order alone decides ties,
regardless of where the keywords occur in the text. -/
theorem experience_level_priority (text : String) :
    (groupMatches ((pyLower text).data) seniorKeywords = true →
      extract_experience_level text = "senior") ∧
    (groupMatches ((pyLower text).data) seniorKeywords = false →
      groupMatches ((pyLower text).data) midKeywords = true →
      extract_experience_level text = "mid") ∧
    (groupMatches ((pyLower text).data) seniorKeywords = false →
      groupMatches ((pyLower text).data) midKeywords = false →
      groupMatches ((pyLower text).data) juniorKeywords = true →
      extract_experience_level text = "junior") ∧
    (groupMatches ((pyLower text).data) seniorKeywords = false →
      groupMatches ((pyLower text).data) midKeywords = false →
      groupMatches ((pyLower text).data) juniorKeywords = false →
      groupMatches ((pyLower text).data) internKeywords = true →
      extract_experience_level text = "intern") ∧
    (groupMatches ((pyLower text).data) seniorKeywords = false →
      groupMatches ((pyLower text).data) midKeywords = false →
      groupMatches ((pyLower text).data) juniorKeywords = false →
      groupMatches ((pyLower text).data) internKeywords = false →
      extract_experience_level text = "unknown") := by
  refine ⟨?_, ?_, ?_, ?_, ?_⟩ <;> intros <;>
    simp_all [extract_experience_level, EXPERIENCE_KEYWORDS,
      extract_experience_level_go]

/-- Claim C10, witness: in `"graduate engineer, now lead"` a junior
keyword (`graduate`) occurs before a senior keyword (`lead`), yet the
senior group wins by priority order. -/
theorem experience_level_priority_witness :
    groupMatches ((pyLower ("graduate engineer, now lead")).data) seniorKeywords = true ∧
    groupMatches ((pyLower ("graduate engineer, now lead")).data) juniorKeywords = true ∧
    extract_experience_level ("graduate engineer, now lead") = "senior" :=
  ⟨by decide, by decide,
   (experience_level_priority ("graduate engineer, now lead")).1 (by decide)⟩
